import Mathlib

/-!
Verification of the rock-paper-scissors hand-gesture game (`src/App.jsx`).

The repository source file contains two revisions of the React component,
separated by a document marker.  The second (current) revision defines the
gesture classifier `classifyGesture` (threshold 40 over the four non-thumb
fingertips), the round pipeline `capturePose`, the round starter `playRound`
and `resetScores`.  The first (older) revision defines an earlier classifier
(threshold 50 over all five fingertips, Paper at four extended fingers),
embedded here as `classifyGestureV1`.

Landmark coordinates are modelled as integers (pixel units); the random draw
`Math.random()` is modelled as a rational number `r` with `0 ≤ r < 1`.
State updates performed through React setters are modelled as a pure function
from the component state to the component state reached after all scheduled
timeouts have fired.
-/

namespace RPS

/-- A 2-D hand landmark in image-pixel space (`keypoints[i]` has fields
`x` and `y`). -/
structure Landmark where
  x : ℤ
  y : ℤ
deriving DecidableEq

/-- Default landmark used to total out-of-range list indexing (never reached
on well-formed input). -/
def origin : Landmark := ⟨0, 0⟩

/-- `keypoints[i].y`. -/
def kpY (kps : List Landmark) (i : Nat) : ℤ := (kps.getD i origin).y

/-- The `MOVES` array of the current revision:
`["Rock ✊", "Paper 🖐️", "Scissors ✌️"]`. -/
def MOVES : List String := ["Rock ✊", "Paper 🖐️", "Scissors ✌️"]

/-- The current revision's classifier (`classifyGesture`, second revision):
guard `!keypoints || keypoints.length < 21`, then extension test
`tip.y < wristY - 40` for fingertips 8, 12, 16, 20, then the decision table
`0 → Rock`, `≥ 3 → Paper`, `index ∧ middle ∧ ¬ring ∧ ¬pinky → Scissors`,
otherwise `null` (modelled as `none`). -/
def classifyGesture (keypoints : Option (List Landmark)) : Option String :=
  match keypoints with
  | none => none
  | some kps =>
    if kps.length < 21 then none
    else
      let wristY := kpY kps 0
      let indexTip : Bool := decide (kpY kps 8 < wristY - 40)
      let middleTip : Bool := decide (kpY kps 12 < wristY - 40)
      let ringTip : Bool := decide (kpY kps 16 < wristY - 40)
      let pinkyTip : Bool := decide (kpY kps 20 < wristY - 40)
      let extendedFingers :=
        (if indexTip then 1 else 0) + (if middleTip then 1 else 0) +
        (if ringTip then 1 else 0) + (if pinkyTip then 1 else 0)
      if extendedFingers = 0 then some "Rock ✊"
      else if extendedFingers ≥ 3 then some "Paper 🖐️"
      else if indexTip && middleTip && !ringTip && !pinkyTip then some "Scissors ✌️"
      else none

/-- The older revision's classifier (`classifyGesture`, first revision):
extension test `tip.y < wristY - 50` over all five fingertips 4, 8, 12, 16,
20; table `0 → Rock`, `≥ 4 → Paper`,
`count = 2 ∧ keypoints[12].y > keypoints[8].y - 20 → Scissors`, else `null`. -/
def classifyGestureV1 (kps : List Landmark) : Option String :=
  let wristY := kpY kps 0
  let tips := [kps.getD 4 origin, kps.getD 8 origin, kps.getD 12 origin,
    kps.getD 16 origin, kps.getD 20 origin]
  let extendedCount := (tips.filter (fun tip => decide (tip.y < wristY - 50))).length
  if extendedCount = 0 then some "Rock ✊"
  else if extendedCount ≥ 4 then some "Paper 🖐️"
  else if extendedCount = 2 && decide (kpY kps 12 > kpY kps 8 - 20) then some "Scissors ✌️"
  else none

/-- The spec's configurable threshold `T` (the current revision fixes it
at 40). -/
def T : ℤ := 40

/-- Spec-side extension test: fingertip `i` is extended iff its y-coordinate
is strictly below `wristY − T`. -/
def specExtended (kps : List Landmark) (i : Nat) : Bool :=
  decide (kpY kps i < kpY kps 0 - T)

/-- The spec's decision table, first match wins, written from the spec's
words: extended count over fingertips {8, 12, 16, 20}; `0 → Rock`,
`≥ 3 → Paper`, `8 ∧ 12 ∧ ¬16 ∧ ¬20 → Scissors`, otherwise Unclear
(`none`). -/
def specClassify (kps : List Landmark) : Option String :=
  let extendedCount := (([8, 12, 16, 20] : List Nat).filter (specExtended kps)).length
  if extendedCount = 0 then some "Rock ✊"
  else if extendedCount ≥ 3 then some "Paper 🖐️"
  else if specExtended kps 8 && specExtended kps 12 &&
      !specExtended kps 16 && !specExtended kps 20 then some "Scissors ✌️"
  else none

/-- A 21-point pose with every landmark `(0, f i)`. -/
def mkPose (f : Nat → ℤ) : List Landmark := (List.range 21).map (fun i => ⟨0, f i⟩)

/-- All fingertips level with the wrist: classified Rock. -/
def rockPose : List Landmark := mkPose (fun _ => 200)

/-- Fingertips 8 and 12 raised well above the wrist, 16 and 20 level:
classified Scissors. -/
def scissorsPose : List Landmark := mkPose (fun i => if i = 8 ∨ i = 12 then 100 else 200)

/-- All four checked fingertips raised: classified Paper. -/
def paperPose : List Landmark := mkPose (fun i => if i = 0 then 200 else 100)

/-- Only fingertip 8 raised: classified as unclear (`none`). -/
def unclearPose : List Landmark := mkPose (fun i => if i = 8 then 100 else 200)

/-- A 22-landmark pose, every landmark at `(0, 200)`. -/
def pose22 : List Landmark := List.replicate 22 ⟨0, 200⟩

/-- Fingertip 8 at y = 55, everything else at y = 100: extended for the
current threshold 40 but not for the older threshold 50. -/
def c10pose : List Landmark := mkPose (fun i => if i = 8 then 55 else 100)

/-- Same as `scissorsPose` except the thumb fingertip (landmark 4) is moved
far above the wrist. -/
def scissorsThumbPose : List Landmark :=
  mkPose (fun i => if i = 8 ∨ i = 12 then 100 else if i = 4 then -500 else 200)

/-- Round outcome from the player's perspective. -/
inductive Outcome where
  | Win
  | Lose
  | Tie
deriving DecidableEq

/-- The outcome computation of `capturePose` (second revision): string
equality gives a tie, otherwise the player wins exactly on the three listed
beats-pairs, otherwise the AI wins. -/
def roundOutcome (gesture aiChoice : String) : Outcome :=
  if gesture == aiChoice then .Tie
  else if (gesture == "Rock ✊" && aiChoice == "Scissors ✌️") ||
      (gesture == "Paper 🖐️" && aiChoice == "Rock ✊") ||
      (gesture == "Scissors ✌️" && aiChoice == "Paper 🖐️") then .Win
  else .Lose

/-- The `winnerText` strings set by `capturePose`. -/
def resultText : Outcome → String
  | .Win => "YOU WIN! 🎉"
  | .Lose => "AI WINS! 😈"
  | .Tie => "It's a TIE! 🤝"

/-- The score-ledger update of `capturePose`: a player win increments
`playerScore`, an AI win increments `aiScore`, a tie changes neither
counter. -/
def record (sc : Nat × Nat) : Outcome → Nat × Nat
  | .Win => (sc.1 + 1, sc.2)
  | .Lose => (sc.1, sc.2 + 1)
  | .Tie => sc

/-- The component state of the current revision: detector readiness, the
countdown (`null` modelled as `none`; a round is in flight iff it is
`some _`), the two move labels, the result message and the two score
counters. -/
structure AppState where
  detector : Bool
  countdown : Option Nat
  playerMove : String
  aiMove : String
  result : String
  playerScore : Nat
  aiScore : Nat
deriving DecidableEq

/-- `MOVES[Math.floor(r * 3)]`, the AI move drawn from the random sample
`r`. -/
def aiMoveOf (r : ℚ) : String := MOVES.getD (Int.floor (r * 3)).toNat "?"

/-- The `capturePose` callback of the current revision, modelled as a pure
function of the pre-state, the detection result (`none` when
`hands.length === 0`) and the random sample `r`, returning the state after
all scheduled timeouts have fired (so `countdown` is back to `none`). -/
def capturePose (s : AppState) (hands : Option (List Landmark)) (r : ℚ) :
    AppState :=
  match hands with
  | none => { s with result := "No hand detected! Try again.", countdown := none }
  | some kps =>
    match classifyGesture (some kps) with
    | none =>
      { s with result := "Unclear gesture! Hold steady next time.", countdown := none }
    | some gesture =>
      let aiChoice := aiMoveOf r
      let s1 := { s with playerMove := gesture, aiMove := aiChoice }
      let s2 :=
        if gesture == aiChoice then { s1 with result := "It's a TIE! 🤝" }
        else if (gesture == "Rock ✊" && aiChoice == "Scissors ✌️") ||
            (gesture == "Paper 🖐️" && aiChoice == "Rock ✊") ||
            (gesture == "Scissors ✌️" && aiChoice == "Paper 🖐️") then
          { s1 with result := "YOU WIN! 🎉", playerScore := s1.playerScore + 1 }
        else { s1 with result := "AI WINS! 😈", aiScore := s1.aiScore + 1 }
      { s2 with countdown := none }

/-- The `playRound` click handler of the current revision: refuse when a
countdown is in flight or the detector is not ready, otherwise clear the
move labels and start the countdown at 3. -/
def playRound (s : AppState) : AppState :=
  if s.countdown.isSome || !s.detector then s
  else { s with playerMove := "?", aiMove := "?", result := "Get ready...",
                countdown := some 3 }

/-- The `resetScores` click handler of the current revision. -/
def resetScores (s : AppState) : AppState :=
  { s with playerScore := 0, aiScore := 0, countdown := none,
           playerMove := "?", aiMove := "?", result := "Scores reset! Play again." }

/-- A ready idle state, as after model load. -/
def sampleState : AppState :=
  ⟨true, none, "?", "?", "Click PLAY to start!", 0, 0⟩

/-- A state with a round in flight (countdown at 2) and a nonzero score. -/
def midRoundState : AppState :=
  ⟨true, some 2, "?", "?", "Get ready...", 1, 2⟩

/-- C1: on every 21-landmark pose, the classifier returns exactly the result
of the spec's first-match-wins decision table with the extension test
`y < wristY − T`: count 0 → Rock, count ≥ 3 → Paper, 8 ∧ 12 ∧ ¬16 ∧ ¬20 →
Scissors, otherwise Unclear. -/
theorem classifyGesture_matches_spec_table (kps : List Landmark)
    (h : kps.length = 21) : classifyGesture (some kps) = specClassify kps := by
  have hlen : ¬ kps.length < 21 := by omega
  simp only [classifyGesture, specClassify, specExtended, T]
  rw [if_neg hlen]
  by_cases h8 : kpY kps 8 < kpY kps 0 - 40 <;>
  by_cases h12 : kpY kps 12 < kpY kps 0 - 40 <;>
  by_cases h16 : kpY kps 16 < kpY kps 0 - 40 <;>
  by_cases h20 : kpY kps 20 < kpY kps 0 - 40 <;>
  simp [specExtended, T, h8, h12, h16, h20, List.filter]

/-- Witness for C1 at a concrete 21-landmark pose. -/
theorem classifyGesture_matches_spec_table_witness :
    rockPose.length = 21 ∧ classifyGesture (some rockPose) = specClassify rockPose :=
  ⟨by decide, classifyGesture_matches_spec_table rockPose (by decide)⟩

/-- Counterexample to C2: a pose with 22 landmarks is not rejected — the
guard in the source is `keypoints.length < 21`, so the 22-landmark pose is
classified normally (here as Rock), unlike an absent hand. -/
theorem classifyGesture_length22_not_noHand :
    pose22.length = 22 ∧ classifyGesture (some pose22) = some "Rock ✊" ∧
      classifyGesture (some pose22) ≠ classifyGesture none := by
  refine ⟨by decide, by decide, by decide⟩

/-- C2 (amended): an absent pose, or a present pose with fewer than 21
landmarks, is classified `none` (NoHand), the same result as for an absent
hand; the classifier is a total function, so no exception and no partial
result. -/
theorem classifyGesture_short_or_absent_noHand (kp : Option (List Landmark))
    (h : kp = none ∨ ∃ l, kp = some l ∧ l.length < 21) :
    classifyGesture kp = none ∧ classifyGesture kp = classifyGesture none := by
  rcases h with h | ⟨l, rfl, hl⟩
  · subst h; exact ⟨rfl, rfl⟩
  · simp only [classifyGesture]
    rw [if_pos hl]
    exact ⟨rfl, rfl⟩

/-- Witness for the amended C2 at a concrete 5-landmark pose. -/
theorem classifyGesture_short_or_absent_noHand_witness :
    (some (List.replicate 5 origin) = none ∨
      ∃ l, some (List.replicate 5 origin) = some l ∧ l.length < 21) ∧
    classifyGesture (some (List.replicate 5 origin)) = none :=
  ⟨Or.inr ⟨List.replicate 5 origin, rfl, by decide⟩,
    (classifyGesture_short_or_absent_noHand (some (List.replicate 5 origin))
      (Or.inr ⟨List.replicate 5 origin, rfl, by decide⟩)).1⟩

/-- C7: on a 21-landmark pose with fingertips 8 and 12 extended and 16 and
20 not extended, the classifier returns Scissors; and the classification
never depends on the thumb landmark 4 — two 21-landmark poses agreeing on
every landmark except index 4 classify identically. -/
theorem classifyGesture_scissors_ignores_thumb :
    (∀ kps : List Landmark, kps.length = 21 →
      kpY kps 8 < kpY kps 0 - 40 → kpY kps 12 < kpY kps 0 - 40 →
      ¬ kpY kps 16 < kpY kps 0 - 40 → ¬ kpY kps 20 < kpY kps 0 - 40 →
      classifyGesture (some kps) = some "Scissors ✌️") ∧
    (∀ kps kps' : List Landmark, kps.length = 21 → kps'.length = 21 →
      (∀ i, i < 21 → i ≠ 4 → kps.getD i origin = kps'.getD i origin) →
      classifyGesture (some kps) = classifyGesture (some kps')) := by
  constructor
  · intro kps h h8 h12 h16 h20
    have hlen : ¬ kps.length < 21 := by omega
    simp only [classifyGesture]
    rw [if_neg hlen]
    simp [h8, h12, h16, h20]
  · intro kps kps' h h' hagree
    have e0 := hagree 0 (by omega) (by omega)
    have e8 := hagree 8 (by omega) (by omega)
    have e12 := hagree 12 (by omega) (by omega)
    have e16 := hagree 16 (by omega) (by omega)
    have e20 := hagree 20 (by omega) (by omega)
    simp only [classifyGesture, kpY, h, h', e0, e8, e12, e16, e20]

/-- Witness for C7: the Scissors pose, and the same pose with the thumb
moved, classify identically (both as Scissors). -/
theorem classifyGesture_scissors_ignores_thumb_witness :
    classifyGesture (some scissorsPose) = some "Scissors ✌️" ∧
    classifyGesture (some scissorsPose) = classifyGesture (some scissorsThumbPose) :=
  ⟨classifyGesture_scissors_ignores_thumb.1 scissorsPose (by decide) (by decide)
      (by decide) (by decide) (by decide),
    classifyGesture_scissors_ignores_thumb.2 scissorsPose scissorsThumbPose
      (by decide) (by decide) (by decide)⟩

/-- Counterexample to C10: at the pose with fingertip 8 at y = 55 and all
other landmarks at y = 100, the older classifier returns Rock while the
current one returns Unclear (`none`): the two revisions disagree. -/
theorem classifier_revisions_differ_at_pose :
    c10pose.length = 21 ∧ classifyGestureV1 c10pose = some "Rock ✊" ∧
      classifyGesture (some c10pose) = none ∧
      classifyGestureV1 c10pose ≠ classifyGesture (some c10pose) := by
  refine ⟨by decide, by decide, by decide, by decide⟩

/-- C10 (amended): the two classifier revisions in the source file do not
compute the same classification function on 21-landmark poses — there is a
21-landmark pose on which they disagree. -/
theorem classifier_revisions_not_equal :
    ∃ kps : List Landmark, kps.length = 21 ∧
      classifyGestureV1 kps ≠ classifyGesture (some kps) :=
  ⟨c10pose, by decide, by decide⟩

/-- Field-level description of `capturePose` on a successful capture: the
player move is the classified gesture, the AI move is drawn from `r`, the
result text and the score update are those of `roundOutcome`, and the
countdown returns to `none`. -/
theorem capturePose_success_fields (s : AppState) (kps : List Landmark) (r : ℚ)
    (g : String) (hg : classifyGesture (some kps) = some g) :
    (capturePose s (some kps) r).playerMove = g ∧
    (capturePose s (some kps) r).aiMove = aiMoveOf r ∧
    (capturePose s (some kps) r).countdown = none ∧
    (capturePose s (some kps) r).result = resultText (roundOutcome g (aiMoveOf r)) ∧
    (capturePose s (some kps) r).detector = s.detector ∧
    ((capturePose s (some kps) r).playerScore, (capturePose s (some kps) r).aiScore) =
      record (s.playerScore, s.aiScore) (roundOutcome g (aiMoveOf r)) := by
  simp only [capturePose, hg]
  by_cases h1 : (g == aiMoveOf r) = true
  · simp [h1, roundOutcome, resultText, record]
  · by_cases h2 : ((g == "Rock ✊" && aiMoveOf r == "Scissors ✌️") ||
        (g == "Paper 🖐️" && aiMoveOf r == "Rock ✊") ||
        (g == "Scissors ✌️" && aiMoveOf r == "Paper 🖐️")) = true
    · simp [h1, h2, roundOutcome, resultText, record]
    · simp [h1, h2, roundOutcome, resultText, record]

/-- Folding the ledger update over a list of outcomes adds the number of
wins to the first counter and the number of losses to the second. -/
theorem foldl_record_eq (l : List Outcome) (sc : Nat × Nat) :
    l.foldl record sc = (sc.1 + l.count .Win, sc.2 + l.count .Lose) := by
  induction l generalizing sc with
  | nil => simp
  | cons o t ih =>
    cases o <;> simp [record, ih, List.count_cons, Prod.ext_iff] <;> omega

/-- Case analysis of the AI draw `MOVES[Math.floor(r * 3)]` over the three
thirds of the unit interval. -/
theorem aiMoveOf_cases (r : ℚ) (h0 : 0 ≤ r) (h1 : r < 1) :
    (aiMoveOf r = "Rock ✊" ↔ r < 1/3) ∧
    (aiMoveOf r = "Paper 🖐️" ↔ 1/3 ≤ r ∧ r < 2/3) ∧
    (aiMoveOf r = "Scissors ✌️" ↔ 2/3 ≤ r) := by
  have hge : (0:ℤ) ≤ Int.floor (r * 3) := Int.floor_nonneg.mpr (by linarith)
  have hlt : Int.floor (r * 3) < 3 := by
    rw [Int.floor_lt]
    push_cast
    linarith
  have hfl : Int.floor (r * 3) = 0 ∨ Int.floor (r * 3) = 1 ∨ Int.floor (r * 3) = 2 := by
    omega
  rcases hfl with hf | hf | hf
  · have hb := Int.floor_eq_iff.mp hf
    push_cast at hb
    have hub : r < 1/3 := by linarith [hb.2]
    have haim : aiMoveOf r = "Rock ✊" := by simp [aiMoveOf, hf, MOVES]
    refine ⟨⟨fun _ => hub, fun _ => haim⟩, ⟨?_, ?_⟩, ⟨?_, ?_⟩⟩
    · intro he
      rw [haim] at he
      exact absurd he (by decide)
    · rintro ⟨ha, _⟩
      linarith
    · intro he
      rw [haim] at he
      exact absurd he (by decide)
    · intro ha
      linarith
  · have hb := Int.floor_eq_iff.mp hf
    push_cast at hb
    have hlb : 1/3 ≤ r := by linarith [hb.1]
    have hub : r < 2/3 := by linarith [hb.2]
    have haim : aiMoveOf r = "Paper 🖐️" := by simp [aiMoveOf, hf, MOVES]
    refine ⟨⟨?_, ?_⟩, ⟨fun _ => ⟨hlb, hub⟩, fun _ => haim⟩, ⟨?_, ?_⟩⟩
    · intro he
      rw [haim] at he
      exact absurd he (by decide)
    · intro ha
      linarith
    · intro he
      rw [haim] at he
      exact absurd he (by decide)
    · intro ha
      linarith
  · have hb := Int.floor_eq_iff.mp hf
    push_cast at hb
    have hlb : 2/3 ≤ r := by linarith [hb.1]
    have haim : aiMoveOf r = "Scissors ✌️" := by simp [aiMoveOf, hf, MOVES]
    refine ⟨⟨?_, ?_⟩, ⟨?_, ?_⟩, ⟨fun _ => hlb, fun _ => haim⟩⟩
    · intro he
      rw [haim] at he
      exact absurd he (by decide)
    · intro ha
      linarith
    · intro he
      rw [haim] at he
      exact absurd he (by decide)
    · rintro ⟨_, ha⟩
      linarith

/-- C3: the outcome relation of `capturePose` is total and exclusive — equal
moves tie, the three beats-pairs give a player win, a win one way is a loss
the other way, and every pair of moves yields exactly one of Win, Lose,
Tie. -/
theorem roundOutcome_total_exclusive :
    (∀ p ∈ MOVES, roundOutcome p p = .Tie) ∧
    roundOutcome "Rock ✊" "Scissors ✌️" = .Win ∧
    roundOutcome "Scissors ✌️" "Paper 🖐️" = .Win ∧
    roundOutcome "Paper 🖐️" "Rock ✊" = .Win ∧
    (∀ p ∈ MOVES, ∀ a ∈ MOVES, p ≠ a →
      (roundOutcome p a = .Win ↔ roundOutcome a p = .Lose)) ∧
    (∀ p a : String,
      (roundOutcome p a = .Win ∧ roundOutcome p a ≠ .Lose ∧ roundOutcome p a ≠ .Tie) ∨
      (roundOutcome p a ≠ .Win ∧ roundOutcome p a = .Lose ∧ roundOutcome p a ≠ .Tie) ∨
      (roundOutcome p a ≠ .Win ∧ roundOutcome p a ≠ .Lose ∧ roundOutcome p a = .Tie)) := by
  refine ⟨by decide, by decide, by decide, by decide, by decide, ?_⟩
  intro p a
  cases h : roundOutcome p a with
  | Win => exact Or.inl ⟨rfl, by decide, by decide⟩
  | Lose => exact Or.inr (Or.inl ⟨by decide, rfl, by decide⟩)
  | Tie => exact Or.inr (Or.inr ⟨by decide, by decide, rfl⟩)

/-- Witness for C3 on the concrete move pair (Rock, Rock). -/
theorem roundOutcome_total_exclusive_witness :
    roundOutcome "Rock ✊" "Rock ✊" = .Tie ∧
    (roundOutcome "Rock ✊" "Scissors ✌️" = .Win ↔
      roundOutcome "Scissors ✌️" "Rock ✊" = .Lose) :=
  ⟨roundOutcome_total_exclusive.1 "Rock ✊" (by decide),
    roundOutcome_total_exclusive.2.2.2.2.1 "Rock ✊" (by decide) "Scissors ✌️"
      (by decide) (by decide)⟩

/-- C4: the score ledger — a player win increments `playerScore` by exactly
one, an AI win increments `aiScore` by exactly one, a tie changes neither;
over any sequence of finalized rounds the counters equal the number of wins
and losses; and the capture pipeline mutates the score exactly by
`record` of the round's outcome. -/
theorem score_ledger_counts :
    (∀ sc : Nat × Nat, record sc .Win = (sc.1 + 1, sc.2) ∧
      record sc .Lose = (sc.1, sc.2 + 1) ∧ record sc .Tie = sc) ∧
    (∀ outcomes : List Outcome,
      (outcomes.foldl record (0, 0)).1 = outcomes.count .Win ∧
      (outcomes.foldl record (0, 0)).2 = outcomes.count .Lose) ∧
    (∀ (s : AppState) (kps : List Landmark) (r : ℚ) (g : String),
      classifyGesture (some kps) = some g →
      ((capturePose s (some kps) r).playerScore, (capturePose s (some kps) r).aiScore) =
        record (s.playerScore, s.aiScore) (roundOutcome g (aiMoveOf r))) := by
  refine ⟨fun sc => ⟨rfl, rfl, rfl⟩, fun outcomes => ?_, fun s kps r g hg => ?_⟩
  · rw [foldl_record_eq]
    simp
  · exact (capturePose_success_fields s kps r g hg).2.2.2.2.2

/-- Witness for C4: the capture pipeline at a concrete Rock pose mutates the
score by `record` of the round outcome. -/
theorem score_ledger_counts_witness :
    ((capturePose sampleState (some rockPose) 0).playerScore,
      (capturePose sampleState (some rockPose) 0).aiScore) =
      record (sampleState.playerScore, sampleState.aiScore)
        (roundOutcome "Rock ✊" (aiMoveOf 0)) :=
  score_ledger_counts.2.2 sampleState rockPose 0 "Rock ✊" (by decide)

/-- C5: `playRound` issued while a round is in flight (countdown not `null`)
is a no-op — state, move labels, result message and both scores are
unchanged. -/
theorem playRound_noop_in_flight (s : AppState) (h : s.countdown ≠ none) :
    playRound s = s ∧
    (playRound s).countdown = s.countdown ∧ (playRound s).playerMove = s.playerMove ∧
    (playRound s).aiMove = s.aiMove ∧ (playRound s).result = s.result ∧
    (playRound s).playerScore = s.playerScore ∧ (playRound s).aiScore = s.aiScore := by
  have hb : s.countdown.isSome = true := Option.isSome_iff_ne_none.mpr h
  have he : playRound s = s := by simp [playRound, hb]
  exact ⟨he, by rw [he], by rw [he], by rw [he], by rw [he], by rw [he], by rw [he]⟩

/-- Witness for C5 at a concrete in-flight state. -/
theorem playRound_noop_in_flight_witness :
    playRound midRoundState = midRoundState :=
  (playRound_noop_in_flight midRoundState (by decide)).1

/-- C6: when detection finds no hand, or classification is unclear, the
round ends with the corresponding message, no AI move is drawn, both score
counters and both move labels are unchanged, and the countdown returns to
`null` (Idle) after the display delay. -/
theorem capturePose_error_atomic (s : AppState) (hands : Option (List Landmark))
    (r : ℚ)
    (h : hands = none ∨ ∃ kps, hands = some kps ∧ classifyGesture (some kps) = none) :
    (capturePose s hands r).playerScore = s.playerScore ∧
    (capturePose s hands r).aiScore = s.aiScore ∧
    (capturePose s hands r).aiMove = s.aiMove ∧
    (capturePose s hands r).playerMove = s.playerMove ∧
    (capturePose s hands r).countdown = none ∧
    (hands = none → (capturePose s hands r).result = "No hand detected! Try again.") ∧
    (∀ kps, hands = some kps →
      (capturePose s hands r).result = "Unclear gesture! Hold steady next time.") := by
  rcases h with rfl | ⟨kps, rfl, hcl⟩
  · simp [capturePose]
  · simp [capturePose, hcl]

/-- Witness for C6: absent detection at a concrete state. -/
theorem capturePose_error_atomic_witness :
    (capturePose sampleState none 0).playerScore = sampleState.playerScore ∧
    (capturePose sampleState none 0).aiScore = sampleState.aiScore ∧
    (capturePose sampleState none 0).aiMove = sampleState.aiMove ∧
    (capturePose sampleState none 0).countdown = none ∧
    (capturePose sampleState none 0).result = "No hand detected! Try again." := by
  have h := capturePose_error_atomic sampleState none 0 (Or.inl rfl)
  exact ⟨h.1, h.2.1, h.2.2.1, h.2.2.2.2.1, h.2.2.2.2.2.1 rfl⟩

/-- C8: the AI move is a function of the random sample alone — two captures
with the same sample and different (valid) player poses draw the same AI
move; each of the three moves is drawn from a set of samples that is an
interval of length exactly 1/3 of the unit interval; no AI move is drawn
when capture fails; and the outcome and score mutation are computed from
the captured gesture and the drawn AI move. -/
theorem ai_move_independent_uniform :
    (∀ (s s' : AppState) (kps kps' : List Landmark) (r : ℚ),
      (classifyGesture (some kps)).isSome = true →
      (classifyGesture (some kps')).isSome = true →
      (capturePose s (some kps) r).aiMove = (capturePose s' (some kps') r).aiMove) ∧
    ({r : ℚ | r ∈ Set.Ico (0:ℚ) 1 ∧ aiMoveOf r = "Rock ✊"} = Set.Ico (0:ℚ) (1/3) ∧
     {r : ℚ | r ∈ Set.Ico (0:ℚ) 1 ∧ aiMoveOf r = "Paper 🖐️"} = Set.Ico (1/3:ℚ) (2/3) ∧
     {r : ℚ | r ∈ Set.Ico (0:ℚ) 1 ∧ aiMoveOf r = "Scissors ✌️"} = Set.Ico (2/3:ℚ) 1) ∧
    ((1/3:ℚ) - 0 = 1/3 ∧ (2/3:ℚ) - 1/3 = 1/3 ∧ (1:ℚ) - 2/3 = 1/3) ∧
    (∀ (s : AppState) (hands : Option (List Landmark)) (r : ℚ),
      (∀ kps, hands = some kps → classifyGesture (some kps) = none) →
      (capturePose s hands r).aiMove = s.aiMove) ∧
    (∀ (s : AppState) (kps : List Landmark) (r : ℚ) (g : String),
      classifyGesture (some kps) = some g →
      (capturePose s (some kps) r).result = resultText (roundOutcome g (aiMoveOf r)) ∧
      ((capturePose s (some kps) r).playerScore, (capturePose s (some kps) r).aiScore) =
        record (s.playerScore, s.aiScore) (roundOutcome g (aiMoveOf r))) := by
  refine ⟨?_, ⟨?_, ?_, ?_⟩, ⟨by norm_num, by norm_num, by norm_num⟩, ?_, ?_⟩
  · intro s s' kps kps' r hk hk'
    obtain ⟨g, hg⟩ := Option.isSome_iff_exists.mp hk
    obtain ⟨g', hg'⟩ := Option.isSome_iff_exists.mp hk'
    rw [(capturePose_success_fields s kps r g hg).2.1,
      (capturePose_success_fields s' kps' r g' hg').2.1]
  · ext r
    simp only [Set.mem_setOf_eq, Set.mem_Ico]
    constructor
    · rintro ⟨⟨h0, h1⟩, heq⟩
      exact ⟨h0, ((aiMoveOf_cases r h0 h1).1.mp heq)⟩
    · rintro ⟨h0, hlt⟩
      have h1 : r < 1 := by linarith
      exact ⟨⟨h0, h1⟩, (aiMoveOf_cases r h0 h1).1.mpr hlt⟩
  · ext r
    simp only [Set.mem_setOf_eq, Set.mem_Ico]
    constructor
    · rintro ⟨⟨h0, h1⟩, heq⟩
      exact (aiMoveOf_cases r h0 h1).2.1.mp heq
    · rintro ⟨hlb, hub⟩
      have h0 : (0:ℚ) ≤ r := by linarith
      have h1 : r < 1 := by linarith
      exact ⟨⟨h0, h1⟩, (aiMoveOf_cases r h0 h1).2.1.mpr ⟨hlb, hub⟩⟩
  · ext r
    simp only [Set.mem_setOf_eq, Set.mem_Ico]
    constructor
    · rintro ⟨⟨h0, h1⟩, heq⟩
      exact ⟨(aiMoveOf_cases r h0 h1).2.2.mp heq, h1⟩
    · rintro ⟨hlb, h1⟩
      have h0 : (0:ℚ) ≤ r := by linarith
      exact ⟨⟨h0, h1⟩, (aiMoveOf_cases r h0 h1).2.2.mpr hlb⟩
  · intro s hands r hfail
    match hands with
    | none => simp [capturePose]
    | some kps => simp [capturePose, hfail kps rfl]
  · intro s kps r g hg
    exact ⟨(capturePose_success_fields s kps r g hg).2.2.2.1,
      (capturePose_success_fields s kps r g hg).2.2.2.2.2⟩

/-- Witness for C8: two captures with the same sample and different player
poses draw the same AI move, and a failed capture draws none. -/
theorem ai_move_independent_uniform_witness :
    (capturePose sampleState (some scissorsPose) (1/2)).aiMove =
      (capturePose midRoundState (some paperPose) (1/2)).aiMove ∧
    (capturePose sampleState none (1/2)).aiMove = sampleState.aiMove :=
  ⟨ai_move_independent_uniform.1 sampleState midRoundState scissorsPose paperPose
      (1/2) (by decide) (by decide),
    ai_move_independent_uniform.2.2.2.1 sampleState none (1/2)
      (fun _ h => Option.noConfusion h)⟩

/-- C9: `resetScores` zeroes both counters, returns any in-flight round to
Idle (countdown `null`), restores both move labels to the neutral
placeholder, and a subsequent `playRound` is accepted whenever the detector
is ready. -/
theorem resetScores_resets (s : AppState) :
    (resetScores s).playerScore = 0 ∧ (resetScores s).aiScore = 0 ∧
    (resetScores s).countdown = none ∧ (resetScores s).playerMove = "?" ∧
    (resetScores s).aiMove = "?" ∧
    (s.detector = true → (playRound (resetScores s)).countdown = some 3) := by
  refine ⟨rfl, rfl, rfl, rfl, rfl, ?_⟩
  intro hd
  simp [resetScores, playRound, hd]

/-- Witness for C9 at a concrete in-flight state with nonzero scores. -/
theorem resetScores_resets_witness :
    (resetScores midRoundState).playerScore = 0 ∧
    (resetScores midRoundState).aiScore = 0 ∧
    (resetScores midRoundState).countdown = none ∧
    (playRound (resetScores midRoundState)).countdown = some 3 := by
  have h := resetScores_resets midRoundState
  exact ⟨h.1, h.2.1, h.2.2.1, h.2.2.2.2.2 (by decide)⟩

end RPS
